import Mathlib

/-!
Verification development for the swift_pay face server
(src/layer2/face_server/main.py and src/layer2/face_server/face_utils.py).

The embedding models the enrollment/verification pipeline of main.py:
  - detect_face         (main.py lines 180-249)
  - FaceDB.add_user     (main.py lines 92-127)
  - FaceDB.verify_face  (main.py lines 129-175)
  - the /register and /verify endpoints (main.py lines 267-321)
and the liveness / similarity helpers of face_utils.py:
  - FaceProcessor.check_liveness       (face_utils.py lines 126-174)
  - FaceProcessor.get_eye_aspect_ratio (face_utils.py lines 216-249)
  - FaceProcessor.compare_faces        (face_utils.py lines 324-337)

External OpenCV calls (imdecode, cvtColor, detectMultiScale, resize,
matchTemplate, imwrite encoding, imread decoding) are modeled as fields of an
environment record `Env`: they are black-box library routines; the control
flow, thresholds, store updates and error handling of the Python code are
modeled concretely.  Machine floats are modeled as rationals; file contents
are modeled by the image they encode (the logical read/write contract).
-/

/-- A numpy image: `chans = 0` encodes a 2-D (grayscale) array, whose numpy
shape has length 2; `chans > 0` encodes a 3-D array of that many channels. -/
structure Img where
  rows : Nat
  cols : Nat
  chans : Nat
  data : List ℚ
deriving DecidableEq

/-- Length of the numpy `shape` tuple of an image: 2 for a grayscale
2-D array, 3 otherwise. -/
def Img.shapeLen (i : Img) : Nat := if i.chans = 0 then 2 else 3

/-- Black-box OpenCV / filesystem primitives used by main.py.  Each field
corresponds to one external library call; the Python control flow around
them is modeled concretely in the definitions below. -/
structure Env where
  /-- cv2.imdecode with IMREAD_COLOR; `none` models a decode failure. -/
  imdecode : List Nat → Option Img
  /-- detectMultiScale with the default (strict) parameters: list of
  (x, y, w, h) candidate boxes. -/
  detect1 : Img → List (Nat × Nat × Nat × Nat)
  /-- detectMultiScale with the lenient retry parameters. -/
  detect2 : Img → List (Nat × Nat × Nat × Nat)
  /-- cv2.cvtColor BGR2GRAY. -/
  cvtGray : Img → Img
  /-- cv2.cvtColor GRAY2BGR. -/
  gray2bgr : Img → Img
  /-- numpy slice img[y : y+h, x : x+w], as (img, x, y, w, h). -/
  cropPx : Img → Nat → Nat → Nat → Nat → Img
  /-- cv2.resize to a (width, height) target. -/
  resize : Img → Nat × Nat → Img
  /-- cv2.matchTemplate TM_CCOEFF_NORMED, element [0][0]. -/
  tmScore : Img → Img → ℚ
  /-- cv2.imwrite encoding: the content stored on disk for an image. -/
  encode : Img → Img
  /-- cv2.imread decoding of stored content; `none` models a file that
  fails to decode (imread returning None). -/
  imreadDecode : Img → Option Img
  /-- whether cv2.imwrite to the given path succeeds. -/
  writeOk : String → Bool
  /-- whether the Haar cascade classifier loaded (face_cascade is not None
  and not empty). -/
  cascadeLoaded : Bool

/-- The enrollment store: the in-memory username map of FaceDB
(username to stored image path) together with the image files on disk. -/
structure St where
  users : String → Option String
  files : String → Option Img

/-- The path add_user writes for a username:
os.path.join(STORAGE_DIR, username + ".jpg"). -/
def storagePath (u : String) : String := "face_data/" ++ u ++ ".jpg"

/-- Pointwise update of the file map (the effect of a successful imwrite). -/
def setFile (f : String → Option Img) (p : String) (c : Img) : String → Option Img :=
  fun q => if q = p then some c else f q

/-- Pointwise update of the username map (self.users[username] = path). -/
def setUser (f : String → Option String) (u : String) (p : String) : String → Option String :=
  fun v => if v = u then some p else f v

/-- Python max(faces, key = w*h): first element of maximal area
(main.py line 230). -/
def largestFace (r : Nat × Nat × Nat × Nat) (rs : List (Nat × Nat × Nat × Nat)) :
    Nat × Nat × Nat × Nat :=
  rs.foldl (fun best c =>
    if c.2.2.1 * c.2.2.2 > best.2.2.1 * best.2.2.2 then c else best) r

/-- detect_face (main.py lines 180-249).  Raised HTTPExceptions are the
`Except.error` branch.  On zero candidate boxes from both detection
attempts the WHOLE decoded image is returned as a fallback (lines 220-225);
the enforcing raise is commented out in the source.  Otherwise the largest
box is expanded by a 20 percent margin of its width, clamped to the image
bounds, and cropped.  Nat subtraction models the max(0, x - margin) clamps. -/
def detectFace (env : Env) (b : List Nat) : Except String Img :=
  if env.cascadeLoaded = false then
    .error "Face detection system not properly initialized"
  else
    match env.imdecode b with
    | none => .error "Invalid image format"
    | some img =>
      let gray := env.cvtGray img
      let faces0 := env.detect1 gray
      let faces := if faces0.isEmpty then env.detect2 gray else faces0
      match faces with
      | [] => .ok img
      | f :: fs =>
        let r := largestFace f fs
        let m := r.2.2.1 / 5
        let x := r.1 - m
        let y := r.2.1 - m
        let w := min (img.cols - x) (r.2.2.1 + 2 * m)
        let h := min (img.rows - y) (r.2.2.2 + 2 * m)
        .ok (env.cropPx img x y w h)

/-- FaceDB.add_user (main.py lines 92-127).  Errors are the exceptions the
function raises (re-raised at line 127).  The state is returned in every
branch so that mutations already performed before a failure are visible:
the only branch that fails after the file write is the exists re-check,
whose condition is always true in this model because the write just
happened. -/
def addUser (env : Env) (st : St) (u : String) (img : Img) :
    Except String String × St :=
  let path := storagePath u
  if img.data.length = 0 then
    (.error "Invalid face image: Image is empty", st)
  else
    let img2 := if img.shapeLen < 3 then env.gray2bgr img else img
    if env.writeOk path then
      let st1 : St := { st with files := setFile st.files path (env.encode img2) }
      if (st1.files path).isSome then
        (.ok path, { st1 with users := setUser st1.users u path })
      else
        (.error ("Face image file not found after saving: " ++ path), st1)
    else
      (.error ("Failed to save face image to " ++ path), st)

/-- FaceDB.verify_face (main.py lines 129-175).  Returns a plain Bool: an
unknown username, a missing stored file, and a stored file that fails to
decode all return false, exactly like a below-threshold match score.  The
match decision is the cv2.matchTemplate TM_CCOEFF_NORMED score of the
grayscale probe (resized to the stored grayscale image size) against the
grayscale stored image, compared against the fixed threshold 0.75
(line 167).  The state is threaded and returned unchanged in every branch:
the function performs no store mutation. -/
def verifyFaceDB (env : Env) (st : St) (img : Img) (u : String) : Bool × St :=
  match st.users u with
  | none => (false, st)
  | some path =>
    match st.files path with
    | none => (false, st)
    | some content =>
      match env.imreadDecode content with
      | none => (false, st)
      | some stored =>
        let storedGray := env.cvtGray stored
        let probeGray := if img.shapeLen > 2 then env.cvtGray img else img
        let probeResized := env.resize probeGray (storedGray.cols, storedGray.rows)
        let score := env.tmScore probeResized storedGray
        (decide (score > 3/4), st)

/-- Response of the /register endpoint (main.py lines 267-293). -/
structure RegisterResp where
  success : Bool
  message : String
deriving DecidableEq

/-- Response of the /verify endpoint (main.py lines 295-321). -/
structure VerifyResp where
  success : Bool
  verified : Bool
  message : String
deriving DecidableEq

/-- The /register endpoint (main.py lines 267-293): detect_face then
FaceDB.add_user; any exception is caught and reported as success false. -/
def registerFace (env : Env) (st : St) (u : String) (b : List Nat) :
    RegisterResp × St :=
  match detectFace env b with
  | .error e => ({ success := false, message := e }, st)
  | .ok faceImg =>
    match addUser env st u faceImg with
    | (.error e, st1) => ({ success := false, message := e }, st1)
    | (.ok _, st1) =>
      ({ success := true, message := "Face registered for user " ++ u }, st1)

/-- The /verify endpoint (main.py lines 295-321): detect_face then
FaceDB.verify_face; a pipeline exception gives success false, otherwise
success true and the boolean verdict. -/
def verifyEndpoint (env : Env) (st : St) (u : String) (b : List Nat) :
    VerifyResp × St :=
  match detectFace env b with
  | .error e => ({ success := false, verified := false, message := e }, st)
  | .ok faceImg =>
    let r := verifyFaceDB env st faceImg u
    ({ success := true, verified := r.1,
       message := if r.1 then "Face verification successful"
                  else "Face verification failed" }, r.2)

/-! ## Liveness evaluator (face_utils.py, FaceProcessor.check_liveness) -/

/-- The four quantities check_liveness computes from a face image
(face_utils.py lines 134-145): texture score (std of the LBP map),
eye aspect ratio, head-pose validity, artifact score. -/
structure LivenessScores where
  textureScore : ℚ
  eyeAspectRatio : ℚ
  headPoseValid : Bool
  artifactScore : ℚ

/-- texture_check = texture_score > 25 (face_utils.py line 151). -/
def textureCheck (s : LivenessScores) : Bool := decide (s.textureScore > 25)

/-- eye_check = eye_aspect_ratio > 0.15 (face_utils.py line 152). -/
def eyeCheck (s : LivenessScores) : Bool := decide (s.eyeAspectRatio > 15/100)

/-- pose_check = head_pose_valid (face_utils.py line 153); computed but not
used by the decision at line 157, which counts a literal True instead. -/
def poseCheck (s : LivenessScores) : Bool := s.headPoseValid

/-- artifact_check = artifact_score < 0.85 (face_utils.py line 154). -/
def artifactCheck (s : LivenessScores) : Bool := decide (s.artifactScore < 85/100)

/-- Python sum() over booleans counts True as 1. -/
def boolToNat (b : Bool) : Nat := if b then 1 else 0

/-- FaceProcessor.check_liveness (face_utils.py lines 126-174).  The input
is the attempt to compute the four scores: `Except.error` models any
exception raised while computing them, caught at lines 172-174 and turned
into False.  On success the decision is
sum([texture_check, eye_check, True, artifact_check]) >= 3, the literal
True standing where pose_check would be (line 157). -/
def check_liveness (r : Except Unit LivenessScores) : Bool :=
  match r with
  | .error _ => false
  | .ok s =>
    let passing := boolToNat (textureCheck s) + boolToNat (eyeCheck s) +
                   boolToNat true + boolToNat (artifactCheck s)
    decide (passing ≥ 3)

/-! ## Eye aspect ratio (face_utils.py, FaceProcessor.get_eye_aspect_ratio) -/

/-- Squared Euclidean distance of two landmark points. -/
def dist2 (p q : ℚ × ℚ) : ℚ := (p.1 - q.1)^2 + (p.2 - q.2)^2

/-- The three squared distances entering one eye ratio: the code value of
the ratio is (sqrt d26 + sqrt d35) / (2 * sqrt d14). -/
structure EyeTerms where
  d26 : ℚ
  d35 : ℚ
  d14 : ℚ
deriving DecidableEq

/-- eye_ratio (face_utils.py lines 229-238) on the six consecutive
landmarks starting at `base`: p1..p6 are landmarks base..base+5, and the
ratio is (norm(p2-p6) + norm(p3-p5)) / (2 * norm(p1-p4)), with norm the
Euclidean np.linalg.norm.  This def returns the squared distances; the
theorems interpret them under Real.sqrt. -/
def eyeRatioTerms (lm : Nat → ℚ × ℚ) (base : Nat) : EyeTerms :=
  { d26 := dist2 (lm (base + 1)) (lm (base + 5))
  , d35 := dist2 (lm (base + 2)) (lm (base + 4))
  , d14 := dist2 (lm base) (lm (base + 3)) }

/-- FaceProcessor.get_eye_aspect_ratio (face_utils.py lines 216-249):
left eye on landmarks 36-41, right eye on landmarks 42-47; the returned
value is the average of the two per-eye ratios. -/
def get_eye_aspect_ratio_terms (lm : Nat → ℚ × ℚ) : EyeTerms × EyeTerms :=
  (eyeRatioTerms lm 36, eyeRatioTerms lm 42)

/-- Modelled from the claim wording, for comparison with the code: per-eye
ratio (vertical distance between p2 and p6 + vertical distance between p3
and p5) / (2 * horizontal distance between p1 and p4), reading vertical
distance as the absolute y difference and horizontal distance as the
absolute x difference. -/
def earClaimEye (lm : Nat → ℚ × ℚ) (base : Nat) : ℚ :=
  (|(lm (base + 1)).2 - (lm (base + 5)).2| + |(lm (base + 2)).2 - (lm (base + 4)).2|) /
    (2 * |(lm base).1 - (lm (base + 3)).1|)

/-- Average of the claim-worded per-eye ratios over both eyes. -/
def earClaimAvg (lm : Nat → ℚ × ℚ) : ℚ :=
  (earClaimEye lm 36 + earClaimEye lm 42) / 2

/-- Landmarks separating the code formula from the claim formula: inside
each eye the p2-p6 and p3-p5 pairs differ only horizontally (vertical
distance 0, Euclidean distances 3 and 4), while p1-p4 lie 10 apart on a
horizontal line. -/
def lmCE (n : Nat) : ℚ × ℚ :=
  if n = 36 ∨ n = 42 then (0, 0)
  else if n = 39 ∨ n = 45 then (10, 0)
  else if n = 37 ∨ n = 43 then (1, 5)
  else if n = 41 ∨ n = 47 then (4, 5)
  else if n = 38 ∨ n = 44 then (1, 7)
  else if n = 40 ∨ n = 46 then (5, 7)
  else (0, 0)

/-! ## Similarity matcher (face_utils.py, FaceProcessor.compare_faces) -/

/-- Dot product of two flattened embeddings (np.dot on 1-D arrays). -/
def dotQ (a b : List ℚ) : ℚ := (List.zipWith (fun x y => x * y) a b).sum

/-- Squared Euclidean norm: np.linalg.norm(a) squared. -/
def sumsq (a : List ℚ) : ℚ := dotQ a a

/-- The value compare_faces returns, as numpy produces it: `errZero` is the
0.0 returned by the except handler; `nan` is the result of the numpy
float division 0.0/0.0, which warns and produces NaN instead of raising;
`val num den2` is the finite value num / sqrt den2. -/
inductive CmpResult where
  | errZero
  | nan
  | val (num den2 : ℚ)
deriving DecidableEq

/-- Whether a compare_faces result is the float value 0.0 (NaN is not). -/
def CmpResult.isZeroFloat : CmpResult → Bool
  | .errZero => true
  | .nan => false
  | .val n _ => decide (n = 0)

/-- FaceProcessor.compare_faces (face_utils.py lines 324-337): flatten both
embeddings, np.dot raises on mismatched 1-D lengths (caught, returning
0.0); otherwise numpy computes dot / (norm(a) * norm(b)) without raising,
yielding NaN when a norm is zero (numpy division emits a warning, not an
exception), and the finite cosine value otherwise. -/
def compare_faces (a b : List ℚ) : CmpResult :=
  if a.length ≠ b.length then .errZero
  else if sumsq a = 0 ∨ sumsq b = 0 then .nan
  else .val (dotQ a b) (sumsq a * sumsq b)

/-! ## Concrete environments and states for witnesses and counterexamples -/

/-- A 1 by 1 three-channel image. -/
def img1 : Img := { rows := 1, cols := 1, chans := 3, data := [1, 2, 3] }

/-- Toy grayscale conversion used by the concrete environments. -/
def grayOf (i : Img) : Img := { i with chans := 0 }

/-- A concrete well-behaved environment: decoding always yields img1, both
detection passes find zero candidates (exercising the whole-image
fallback), storage round-trips losslessly, resize is the identity, and the
template matcher scores 1 on identical images and 0 otherwise. -/
def envOk : Env :=
  { imdecode := fun _ => some img1
  , detect1 := fun _ => []
  , detect2 := fun _ => []
  , cvtGray := grayOf
  , gray2bgr := fun i => { i with chans := 3 }
  , cropPx := fun i _ _ _ _ => i
  , resize := fun i _ => i
  , tmScore := fun a b => if a = b then 1 else 0
  , encode := fun i => i
  , imreadDecode := fun c => some c
  , writeOk := fun _ => true
  , cascadeLoaded := true }

/-- The empty store. -/
def stEmpty : St := { users := fun _ => none, files := fun _ => none }

/-- Environment whose image decoding always fails. -/
def envFail : Env := { envOk with imdecode := fun _ => none }

/-- Environment whose template matcher always scores 0.8. -/
def envC1 : Env := { envOk with tmScore := fun _ _ => 4/5 }

/-- Environment whose template matcher always scores 0. -/
def envC6 : Env := { envOk with tmScore := fun _ _ => 0 }

/-- Environment whose stored-image decoding (cv2.imread) always fails. -/
def envBadRead : Env := { envOk with imreadDecode := fun _ => none }

/-- Store with the single user alice enrolled with img1. -/
def stAlice : St :=
  { users := fun v => if v = "alice" then some (storagePath "alice") else none
  , files := fun p => if p = storagePath "alice" then some img1 else none }

/-- Store with the single user bob enrolled with img1. -/
def stBob : St :=
  { users := fun v => if v = "bob" then some (storagePath "bob") else none
  , files := fun p => if p = storagePath "bob" then some img1 else none }

/-- Environment facts used by the round-trip law: storage decodes back what
was encoded, resizing an image to its own size is the identity, and the
template matcher scores 1 on identical images. -/
structure WellBehaved (env : Env) : Prop where
  roundTrip : ∀ i, env.imreadDecode (env.encode i) = some i
  resizeId : ∀ i, env.resize i (i.cols, i.rows) = i
  tmRefl : ∀ i, env.tmScore i i = 1

/-! ## Claim theorems -/

/-- Claim C2: for every liveness evaluation, the face is declared live iff
at least 3 of the 4 checks {texture, eye, pose, artifact} pass, with the
head-pose check always counted as passing regardless of its computed
value, and any internal computation error yields not-live. -/
theorem claim2_liveness_decision :
    (∀ s : LivenessScores,
        check_liveness (Except.ok s) =
          decide (3 ≤ List.count true [textureCheck s, eyeCheck s, true, artifactCheck s]))
    ∧ (∀ e : Unit, check_liveness (Except.error e) = false)
    ∧ (∀ s : LivenessScores, ∀ b c : Bool,
        check_liveness (Except.ok { s with headPoseValid := b }) =
          check_liveness (Except.ok { s with headPoseValid := c })) := by
  refine ⟨?_, ?_, ?_⟩
  · intro s
    unfold check_liveness
    cases ht : textureCheck s <;> cases he : eyeCheck s <;> cases ha : artifactCheck s <;>
      simp [boolToNat, ht, he, ha]
  · intro e
    rfl
  · intro s b c
    unfold check_liveness
    simp [textureCheck, eyeCheck, artifactCheck]

/-- A sum of squares of rationals is nonnegative. -/
lemma sumsq_nonneg (a : List ℚ) : 0 ≤ sumsq a := by
  unfold sumsq dotQ
  induction a with
  | nil => simp
  | cons x xs ih =>
    simp only [List.zipWith_cons_cons, List.sum_cons]
    have hx : 0 ≤ x * x := mul_self_nonneg x
    linarith

/-- Claim C8 counterexample: on the zero embedding, compare_faces produces
the NaN of the numpy division 0.0/0.0 — not the float value 0 that the
claim promises for a division by zero. -/
theorem claim8_counterexample :
    compare_faces [(0 : ℚ)] [(0 : ℚ)] = CmpResult.nan ∧
      CmpResult.isZeroFloat CmpResult.nan = false := by
  refine ⟨?_, rfl⟩
  norm_num [compare_faces, sumsq, dotQ]

/-- Claim C8 (amended): compare_faces equals dot(a,b) / (norm a * norm b)
when both embeddings have the same length and both are non-zero (the
returned pair (num, den2) denotes num / sqrt den2, and sqrt den2 factors
as norm a * norm b); it returns 0 when the lengths mismatch (np.dot
raises, the handler returns 0.0); but on a zero-norm embedding the numpy
division yields NaN, not 0. -/
theorem claim8_amended (a b : List ℚ) :
    (a.length = b.length → sumsq a ≠ 0 → sumsq b ≠ 0 →
        compare_faces a b = CmpResult.val (dotQ a b) (sumsq a * sumsq b) ∧
        Real.sqrt ((sumsq a * sumsq b : ℚ) : ℝ) =
          Real.sqrt ((sumsq a : ℚ) : ℝ) * Real.sqrt ((sumsq b : ℚ) : ℝ))
    ∧ (a.length ≠ b.length → compare_faces a b = CmpResult.errZero)
    ∧ (a.length = b.length → (sumsq a = 0 ∨ sumsq b = 0) →
        compare_faces a b = CmpResult.nan) := by
  refine ⟨?_, ?_, ?_⟩
  · intro hlen ha hb
    constructor
    · unfold compare_faces
      rw [if_neg (by simp [hlen]), if_neg (by simp [ha, hb])]
    · have hcast : ((sumsq a * sumsq b : ℚ) : ℝ) =
          ((sumsq a : ℚ) : ℝ) * ((sumsq b : ℚ) : ℝ) := by push_cast; ring
      rw [hcast]
      exact Real.sqrt_mul (by exact_mod_cast sumsq_nonneg a) _
  · intro hlen
    unfold compare_faces
    rw [if_pos hlen]
  · intro hlen hz
    unfold compare_faces
    rw [if_neg (by simp [hlen]), if_pos hz]

/-- Claim C8 witness: the amended theorem evaluated at concrete inputs, one
for each clause. -/
theorem claim8_amended_witness :
    compare_faces [(1 : ℚ)] [(2 : ℚ)] =
        CmpResult.val (dotQ [(1 : ℚ)] [(2 : ℚ)]) (sumsq [(1 : ℚ)] * sumsq [(2 : ℚ)])
    ∧ compare_faces [(1 : ℚ)] [(1 : ℚ), (2 : ℚ)] = CmpResult.errZero
    ∧ compare_faces [(3 : ℚ)] [(0 : ℚ)] = CmpResult.nan :=
  ⟨((claim8_amended [1] [2]).1 rfl (by norm_num [sumsq, dotQ]) (by norm_num [sumsq, dotQ])).1,
   (claim8_amended [1] [1, 2]).2.1 (by simp),
   (claim8_amended [3] [0]).2.2 rfl (Or.inr (by norm_num [sumsq, dotQ]))⟩

/-- Claim C6 (amended): verify for an identity with no record returns the
boolean false outcome without throwing (the function is total and leaves
the store untouched); the code has no separate UnknownIdentity outcome. -/
theorem claim6_amended (env : Env) (st : St) (img : Img) (u : String)
    (h : st.users u = none) :
    verifyFaceDB env st img u = (false, st) := by
  unfold verifyFaceDB
  rw [h]

/-- Claim C6 witness: the amended theorem at a concrete unknown identity. -/
theorem claim6_amended_witness :
    verifyFaceDB envOk stEmpty img1 "alice" = (false, stEmpty) :=
  claim6_amended envOk stEmpty img1 "alice" rfl

/-- Claim C6 counterexample: the full /verify response for an unknown
identity (alice, not enrolled) is byte-for-byte the same as the response
for a pipeline-success non-match (bob, enrolled, template score 0): both
are success true, verified false, with the same message.  The caller
cannot distinguish an UnknownIdentity outcome, contrary to the claim. -/
theorem claim6_counterexample :
    (verifyEndpoint envC6 stBob "alice" [0]).1 =
        { success := true, verified := false, message := "Face verification failed" }
    ∧ (verifyEndpoint envC6 stBob "bob" [0]).1 =
        { success := true, verified := false, message := "Face verification failed" }
    ∧ stBob.users "alice" = none
    ∧ stBob.users "bob" = some (storagePath "bob") := by
  have hA : stBob.users "alice" = none := rfl
  have hB : stBob.users "bob" = some (storagePath "bob") := rfl
  have hF : stBob.files (storagePath "bob") = some img1 := rfl
  have h1 : verifyFaceDB envC6 stBob img1 "alice" = (false, stBob) := by
    unfold verifyFaceDB
    simp only [hA]
  have h2 : verifyFaceDB envC6 stBob img1 "bob" = (false, stBob) := by
    unfold verifyFaceDB
    simp only [hB, hF]
    show (decide ((0 : ℚ) > 3/4), stBob) = (false, stBob)
    rw [decide_eq_false (by norm_num)]
  have hd : detectFace envC6 [0] = .ok img1 := rfl
  refine ⟨?_, ?_, hA, hB⟩
  · unfold verifyEndpoint
    rw [hd]
    simp only [h1]
    rfl
  · unfold verifyEndpoint
    rw [hd]
    simp only [h2]
    rfl

/-- Claim C10: for every identity present in the username map whose stored
image file is missing or fails to decode, verify returns false without
raising and without touching the store: the storage failure is reported as
a non-match. -/
theorem claim10_storage_failure_is_nonmatch (env : Env) (st : St) (img : Img)
    (u p : String) (hu : st.users u = some p)
    (hf : st.files p = none ∨ ∃ c, st.files p = some c ∧ env.imreadDecode c = none) :
    verifyFaceDB env st img u = (false, st) := by
  unfold verifyFaceDB
  rcases hf with h | ⟨c, hc, hd⟩
  · simp only [hu, h]
  · simp only [hu, hc, hd]

/-- Claim C10 witness: concrete instances of both storage failures — carol
is enrolled but her stored file fails to decode; dave is enrolled but his
stored file is missing. -/
theorem claim10_witness :
    verifyFaceDB envBadRead stBob img1 "bob" = (false, stBob)
    ∧ verifyFaceDB envOk
        { users := fun v => if v = "dave" then some (storagePath "dave") else none,
          files := fun _ => none } img1 "dave" =
      (false,
        { users := fun v => if v = "dave" then some (storagePath "dave") else none,
          files := fun _ => none }) :=
  ⟨claim10_storage_failure_is_nonmatch envBadRead stBob img1 "bob" (storagePath "bob")
      (by norm_num [stBob]) (Or.inr ⟨img1, by norm_num [stBob], rfl⟩),
   claim10_storage_failure_is_nonmatch envOk _ img1 "dave" (storagePath "dave")
      (by norm_num) (Or.inl rfl)⟩

/-- verify_face threads the store through unchanged in every branch: it
contains no store mutation. -/
lemma verifyFaceDB_state (env : Env) (st : St) (img : Img) (u : String) :
    (verifyFaceDB env st img u).2 = st := by
  unfold verifyFaceDB
  repeat first
  | rfl
  | split

/-- Characterization of add_user: an empty image fails before any write; a
failed imwrite fails without any write; a successful imwrite installs the
encoded (channel-adjusted) image at the storage path and points the
username map at it. -/
lemma addUser_spec (env : Env) (st : St) (u : String) (img : Img) :
    (img.data.length = 0 →
        addUser env st u img = (.error "Invalid face image: Image is empty", st))
    ∧ (img.data.length ≠ 0 → env.writeOk (storagePath u) = false →
        addUser env st u img =
          (.error ("Failed to save face image to " ++ storagePath u), st))
    ∧ (img.data.length ≠ 0 → env.writeOk (storagePath u) = true →
        addUser env st u img =
          (.ok (storagePath u),
            { users := setUser st.users u (storagePath u),
              files := setFile st.files (storagePath u)
                (env.encode (if img.shapeLen < 3 then env.gray2bgr img else img)) })) := by
  refine ⟨?_, ?_, ?_⟩
  · intro h
    unfold addUser
    rw [if_pos h]
  · intro h hw
    unfold addUser
    rw [if_neg h, if_neg (by simp [hw])]
  · intro h hw
    unfold addUser
    rw [if_neg h, if_pos (by simp [hw]), if_pos (by simp [setFile])]

/-- Claim C4: every failing enroll leaves the store (username map and
image files) exactly as it was, and verify never mutates the store,
whether it succeeds or fails. -/
theorem claim4_failure_leaves_store_unchanged (env : Env) (st : St) (u : String)
    (b : List Nat) :
    ((registerFace env st u b).1.success = false → (registerFace env st u b).2 = st)
    ∧ (verifyEndpoint env st u b).2 = st := by
  constructor
  · intro hs
    unfold registerFace at hs ⊢
    cases hd : detectFace env b with
    | error e => simp only [hd]
    | ok crop =>
      simp only [hd] at hs ⊢
      by_cases hlen : crop.data.length = 0
      · rw [(addUser_spec env st u crop).1 hlen]
      · cases hw : env.writeOk (storagePath u) with
        | false => rw [(addUser_spec env st u crop).2.1 hlen hw]
        | true =>
          rw [(addUser_spec env st u crop).2.2 hlen hw] at hs
          simp at hs
  · unfold verifyEndpoint
    cases hd : detectFace env b with
    | error e => simp only [hd]
    | ok crop =>
      simp only [hd]
      exact verifyFaceDB_state env st crop u

/-- Claim C4 witness: a concrete failing enroll (image decoding fails) and
a concrete verify, both leaving the empty store unchanged. -/
theorem claim4_witness :
    (registerFace envFail stEmpty "alice" [0]).2 = stEmpty
    ∧ (verifyEndpoint envFail stEmpty "alice" [0]).2 = stEmpty :=
  ⟨(claim4_failure_leaves_store_unchanged envFail stEmpty "alice" [0]).1 rfl,
   (claim4_failure_leaves_store_unchanged envFail stEmpty "alice" [0]).2⟩

/-- Claim C1 (amended): for every enrolled identity whose stored image
loads, the verify endpoint succeeds and its boolean verdict is exactly
"template-matching score > 0.75": the TM_CCOEFF_NORMED score of the
grayscale probe, resized to the stored grayscale image size, against the
grayscale stored image, compared with the fixed threshold 0.75.  No
embedding and no cosine similarity enter the decision. -/
theorem claim1_amended (env : Env) (st : St) (u p : String) (c stored img : Img)
    (b : List Nat)
    (hd : detectFace env b = .ok img)
    (hu : st.users u = some p) (hf : st.files p = some c)
    (hr : env.imreadDecode c = some stored) :
    (verifyEndpoint env st u b).1.success = true
    ∧ (verifyEndpoint env st u b).1.verified =
        decide (env.tmScore
          (env.resize (if img.shapeLen > 2 then env.cvtGray img else img)
            ((env.cvtGray stored).cols, (env.cvtGray stored).rows))
          (env.cvtGray stored) > 3/4) := by
  have hv : verifyFaceDB env st img u =
      (decide (env.tmScore
        (env.resize (if img.shapeLen > 2 then env.cvtGray img else img)
          ((env.cvtGray stored).cols, (env.cvtGray stored).rows))
        (env.cvtGray stored) > 3/4), st) := by
    unfold verifyFaceDB
    simp only [hu, hf, hr]
  unfold verifyEndpoint
  rw [hd]
  simp only [hv]
  constructor <;> trivial

/-- Claim C1 witness: the amended theorem at a concrete enrolled identity
whose template score is 0.8, so the verdict is true. -/
theorem claim1_amended_witness :
    (verifyEndpoint envC1 stAlice "alice" [0]).1.success = true
    ∧ (verifyEndpoint envC1 stAlice "alice" [0]).1.verified =
        decide ((4 : ℚ)/5 > 3/4) :=
  claim1_amended envC1 stAlice "alice" (storagePath "alice") img1 img1 img1 [0]
    rfl rfl rfl rfl

/-- Claim C1 counterexample: with a template-matching score of 0.8 the
code answers Matched true, although 0.8 does not exceed the threshold
0.85 the claim states; the decision boundary is 0.75, not 0.85, and it is
applied to the matchTemplate score, not to a cosine similarity of
embeddings (verify computes no embedding at all). -/
theorem claim1_counterexample :
    (verifyEndpoint envC1 stAlice "alice" [0]).1.verified = true
    ∧ envC1.tmScore (grayOf img1) (grayOf img1) = 4/5
    ∧ ¬ ((4 : ℚ)/5 > 85/100) := by
  refine ⟨?_, rfl, by norm_num⟩
  have hv : verifyFaceDB envC1 stAlice img1 "alice" = (true, stAlice) := by
    unfold verifyFaceDB
    simp only [show stAlice.users "alice" = some (storagePath "alice") from rfl,
               show stAlice.files (storagePath "alice") = some img1 from rfl]
    show (decide ((4 : ℚ)/5 > 3/4), stAlice) = (true, stAlice)
    rw [decide_eq_true (by norm_num : (4 : ℚ)/5 > 3/4)]
  unfold verifyEndpoint
  rw [show detectFace envC1 [0] = .ok img1 from rfl]
  simp only [hv]

/-- Claim C3 (amended): when both detection attempts find zero candidate
faces, detect_face does not fail: it returns the whole decoded image as a
fallback (the enforcing raise is commented out in the source), and enroll
and verify proceed on the whole image. -/
theorem claim3_amended (env : Env) (b : List Nat) (img : Img)
    (hc : env.cascadeLoaded = true) (hdec : env.imdecode b = some img)
    (h1 : env.detect1 (env.cvtGray img) = [])
    (h2 : env.detect2 (env.cvtGray img) = []) :
    detectFace env b = Except.ok img := by
  unfold detectFace
  rw [if_neg (by simp [hc])]
  simp only [hdec, h1, h2, List.isEmpty_nil, if_true]

/-- Claim C3 witness: the amended theorem at a concrete environment whose
two detection passes both return zero candidates. -/
theorem claim3_amended_witness : detectFace envOk [0] = Except.ok img1 :=
  claim3_amended envOk [0] img1 rfl rfl rfl rfl

/-- Claim C3 counterexample: in an environment where both detection passes
find zero candidate faces, enroll does NOT return a NoFaceDetected failure
and the store is NOT left unmodified: registration succeeds on the
whole-image fallback and enrolls the user. -/
theorem claim3_counterexample :
    envOk.detect1 (envOk.cvtGray img1) = []
    ∧ envOk.detect2 (envOk.cvtGray img1) = []
    ∧ (registerFace envOk stEmpty "alice" [0]).1.success = true
    ∧ ((registerFace envOk stEmpty "alice" [0]).2).users "alice" =
        some (storagePath "alice")
    ∧ stEmpty.users "alice" = none := by
  have hadd := (addUser_spec envOk stEmpty "alice" img1).2.2 (by decide) rfl
  have hreg : registerFace envOk stEmpty "alice" [0] =
      ({ success := true, message := "Face registered for user " ++ "alice" },
        { users := setUser stEmpty.users "alice" (storagePath "alice"),
          files := setFile stEmpty.files (storagePath "alice")
            (envOk.encode (if img1.shapeLen < 3 then envOk.gray2bgr img1 else img1)) }) := by
    unfold registerFace
    simp only [show detectFace envOk [0] = Except.ok img1 from rfl, hadd]
  refine ⟨rfl, rfl, ?_, ?_, rfl⟩
  · rw [hreg]
  · rw [hreg]
    show setUser stEmpty.users "alice" (storagePath "alice") "alice" =
      some (storagePath "alice")
    simp [setUser]

/-- The /verify endpoint returns the store unchanged in every branch. -/
lemma verifyEndpoint_state (env : Env) (st : St) (u : String) (b : List Nat) :
    (verifyEndpoint env st u b).2 = st := by
  unfold verifyEndpoint
  cases hd : detectFace env b with
  | error e => rfl
  | ok crop =>
    simp only
    exact verifyFaceDB_state env st crop u

/-- Claim C7: the store keys at most one record per identity (the username
map is a function to at most one path); a successful enroll installs the
new image at the identity's single storage path, fully overwriting any
prior record and leaving every other identity untouched; no record is
ever removed, and verify removes nothing either. -/
theorem claim7_store_invariants (env : Env) (st : St) (u : String) (b : List Nat)
    (hs : (registerFace env st u b).1.success = true) :
    (∃ crop, detectFace env b = Except.ok crop
        ∧ ((registerFace env st u b).2).users u = some (storagePath u)
        ∧ ((registerFace env st u b).2).files (storagePath u) =
            some (env.encode (if crop.shapeLen < 3 then env.gray2bgr crop else crop)))
    ∧ (∀ v, v ≠ u → ((registerFace env st u b).2).users v = st.users v)
    ∧ (∀ v, st.users v ≠ none → ((registerFace env st u b).2).users v ≠ none)
    ∧ ((verifyEndpoint env st u b).2).users = st.users := by
  cases hd : detectFace env b with
  | error e =>
    unfold registerFace at hs
    rw [hd] at hs
    simp at hs
  | ok crop =>
    unfold registerFace at hs ⊢
    simp only [hd] at hs ⊢
    by_cases hlen : crop.data.length = 0
    · rw [(addUser_spec env st u crop).1 hlen] at hs
      simp at hs
    · cases hw : env.writeOk (storagePath u) with
      | false =>
        rw [(addUser_spec env st u crop).2.1 hlen hw] at hs
        simp at hs
      | true =>
        rw [(addUser_spec env st u crop).2.2 hlen hw]
        refine ⟨⟨crop, rfl, ?_, ?_⟩, ?_, ?_, ?_⟩
        · simp [setUser]
        · simp [setFile]
        · intro v hv
          simp [setUser, hv]
        · intro v hv
          by_cases hvu : v = u
          · subst hvu
            simp [setUser]
          · simp [setUser, hvu]
            exact hv
        · rw [congrArg St.users (verifyEndpoint_state env st u b)]

/-- Claim C7 witness: a concrete successful enrollment, and the verify
endpoint leaving the username map of the empty store intact. -/
theorem claim7_witness :
    ((registerFace envOk stEmpty "alice" [0]).2).users "alice" =
        some (storagePath "alice")
    ∧ ((verifyEndpoint envOk stEmpty "alice" [0]).2).users = stEmpty.users := by
  obtain ⟨⟨crop, hc, hu2, hf2⟩, hother, hpres, hver⟩ :=
    claim7_store_invariants envOk stEmpty "alice" [0] rfl
  exact ⟨hu2, hver⟩

/-- Claim C5: if enroll succeeds then an immediately following verify with
the same image bytes answers Matched true: the deterministic pipeline
reproduces the same face crop, the store round-trips the stored image, and
the template matcher scores 1 on identical images, which exceeds 0.75.
The environment hypotheses state the storage round-trip, the identity of
same-size resizing, and self-match score 1 for the black-box library
calls. -/
theorem claim5_enroll_then_verify (env : Env) (st : St) (u : String) (b : List Nat)
    (crop : Img) (hwb : WellBehaved env)
    (hd : detectFace env b = .ok crop)
    (hch : crop.chans ≠ 0) (hlen : crop.data.length ≠ 0)
    (hwr : env.writeOk (storagePath u) = true) :
    (registerFace env st u b).1.success = true
    ∧ (verifyEndpoint env ((registerFace env st u b).2) u b).1 =
        { success := true, verified := true,
          message := "Face verification successful" } := by
  have hshape : crop.shapeLen = 3 := by
    unfold Img.shapeLen
    rw [if_neg hch]
  have hadd := (addUser_spec env st u crop).2.2 hlen hwr
  rw [show (if crop.shapeLen < 3 then env.gray2bgr crop else crop) = crop from by
    simp [hshape]] at hadd
  have hreg : registerFace env st u b =
      ({ success := true, message := "Face registered for user " ++ u },
        { users := setUser st.users u (storagePath u),
          files := setFile st.files (storagePath u) (env.encode crop) }) := by
    unfold registerFace
    simp only [hd, hadd]
  refine ⟨by rw [hreg], ?_⟩
  rw [hreg]
  have hu2 : (setUser st.users u (storagePath u)) u = some (storagePath u) := by
    simp [setUser]
  have hf2 : (setFile st.files (storagePath u) (env.encode crop)) (storagePath u) =
      some (env.encode crop) := by
    simp [setFile]
  have hv : verifyFaceDB env
      { users := setUser st.users u (storagePath u),
        files := setFile st.files (storagePath u) (env.encode crop) } crop u =
      (true,
        { users := setUser st.users u (storagePath u),
          files := setFile st.files (storagePath u) (env.encode crop) }) := by
    unfold verifyFaceDB
    simp only [hu2, hf2, hwb.roundTrip, hshape]
    simp only [show (3 : Nat) > 2 from by norm_num, if_true]
    rw [hwb.resizeId, hwb.tmRefl]
    rw [decide_eq_true (by norm_num : (1 : ℚ) > 3/4)]
  unfold verifyEndpoint
  rw [hd]
  simp only [hv]
  rfl

/-- Claim C5 witness: a concrete enroll of alice into the empty store
followed by verify on the same bytes, answering Matched true. -/
theorem claim5_witness :
    (registerFace envOk stEmpty "alice" [0]).1.success = true
    ∧ (verifyEndpoint envOk ((registerFace envOk stEmpty "alice" [0]).2) "alice" [0]).1 =
        { success := true, verified := true,
          message := "Face verification successful" } :=
  claim5_enroll_then_verify envOk stEmpty "alice" [0] img1
    ⟨fun _ => rfl, fun _ => rfl, fun i => if_pos rfl⟩ rfl (by decide) (by decide) rfl

/-- The distance of two landmark points in the Euclidean plane is the
square root of their squared-distance dist2: np.linalg.norm of the point
difference is the Euclidean distance. -/
lemma euclid_dist2 (p q : ℚ × ℚ) :
    dist ((WithLp.equiv 2 (Fin 2 → ℝ)).symm ![(p.1 : ℝ), (p.2 : ℝ)])
        ((WithLp.equiv 2 (Fin 2 → ℝ)).symm ![(q.1 : ℝ), (q.2 : ℝ)])
      = Real.sqrt ((dist2 p q : ℚ) : ℝ) := by
  rw [EuclideanSpace.dist_eq]
  congr 1
  rw [Fin.sum_univ_two]
  simp only [WithLp.equiv_symm_pi_apply, Matrix.cons_val_zero, Matrix.cons_val_one,
    Matrix.head_cons, Real.dist_eq, sq_abs]
  push_cast [dist2]
  ring

/-- Claim C9 (amended): get_eye_aspect_ratio uses left-eye landmarks 36-41
and right-eye landmarks 42-47, computes for each eye
(EUCLIDEAN distance between p2 and p6 + EUCLIDEAN distance between p3 and
p5) / (2 times the EUCLIDEAN distance between p1 and p4) — np.linalg.norm
distances, not the vertical/horizontal coordinate distances the claim
words state — averages the two eyes, and the liveness eye check passes
iff the average exceeds 0.15. -/
theorem claim9_amended (lm : Nat → ℚ × ℚ) :
    get_eye_aspect_ratio_terms lm = (eyeRatioTerms lm 36, eyeRatioTerms lm 42)
    ∧ (∀ b : Nat,
        (Real.sqrt (((eyeRatioTerms lm b).d26 : ℚ) : ℝ) +
            Real.sqrt (((eyeRatioTerms lm b).d35 : ℚ) : ℝ)) /
          (2 * Real.sqrt (((eyeRatioTerms lm b).d14 : ℚ) : ℝ))
        = (dist ((WithLp.equiv 2 (Fin 2 → ℝ)).symm
                ![((lm (b + 1)).1 : ℝ), ((lm (b + 1)).2 : ℝ)])
              ((WithLp.equiv 2 (Fin 2 → ℝ)).symm
                ![((lm (b + 5)).1 : ℝ), ((lm (b + 5)).2 : ℝ)]) +
            dist ((WithLp.equiv 2 (Fin 2 → ℝ)).symm
                ![((lm (b + 2)).1 : ℝ), ((lm (b + 2)).2 : ℝ)])
              ((WithLp.equiv 2 (Fin 2 → ℝ)).symm
                ![((lm (b + 4)).1 : ℝ), ((lm (b + 4)).2 : ℝ)])) /
          (2 * dist ((WithLp.equiv 2 (Fin 2 → ℝ)).symm
                ![((lm b).1 : ℝ), ((lm b).2 : ℝ)])
              ((WithLp.equiv 2 (Fin 2 → ℝ)).symm
                ![((lm (b + 3)).1 : ℝ), ((lm (b + 3)).2 : ℝ)])))
    ∧ (∀ s : LivenessScores, eyeCheck s = decide (s.eyeAspectRatio > 15/100)) := by
  refine ⟨rfl, ?_, fun s => rfl⟩
  intro b
  rw [euclid_dist2, euclid_dist2, euclid_dist2]
  rfl

/-- Claim C9 counterexample: landmarks on which the average of the code
ratios (Euclidean distances: per-eye value (3 + 4) / (2 * 10) = 0.35) is
above the 0.15 threshold, while the claim formula built from vertical and
horizontal coordinate distances gives 0, below the threshold: the claim
misstates the distances used. -/
theorem claim9_counterexample :
    earClaimAvg lmCE ≤ 15/100
    ∧ ((Real.sqrt (((eyeRatioTerms lmCE 36).d26 : ℚ) : ℝ) +
          Real.sqrt (((eyeRatioTerms lmCE 36).d35 : ℚ) : ℝ)) /
            (2 * Real.sqrt (((eyeRatioTerms lmCE 36).d14 : ℚ) : ℝ)) +
        (Real.sqrt (((eyeRatioTerms lmCE 42).d26 : ℚ) : ℝ) +
          Real.sqrt (((eyeRatioTerms lmCE 42).d35 : ℚ) : ℝ)) /
            (2 * Real.sqrt (((eyeRatioTerms lmCE 42).d14 : ℚ) : ℝ))) / 2 > 15/100 := by
  have h26 : (eyeRatioTerms lmCE 36).d26 = 9 := by norm_num [eyeRatioTerms, dist2, lmCE]
  have h35 : (eyeRatioTerms lmCE 36).d35 = 16 := by norm_num [eyeRatioTerms, dist2, lmCE]
  have h14 : (eyeRatioTerms lmCE 36).d14 = 100 := by norm_num [eyeRatioTerms, dist2, lmCE]
  have g26 : (eyeRatioTerms lmCE 42).d26 = 9 := by norm_num [eyeRatioTerms, dist2, lmCE]
  have g35 : (eyeRatioTerms lmCE 42).d35 = 16 := by norm_num [eyeRatioTerms, dist2, lmCE]
  have g14 : (eyeRatioTerms lmCE 42).d14 = 100 := by norm_num [eyeRatioTerms, dist2, lmCE]
  have s9 : Real.sqrt (((9 : ℚ) : ℚ) : ℝ) = 3 := by
    rw [show (((9 : ℚ) : ℚ) : ℝ) = (3 : ℝ)^2 by norm_num]
    exact Real.sqrt_sq (by norm_num)
  have s16 : Real.sqrt (((16 : ℚ) : ℚ) : ℝ) = 4 := by
    rw [show (((16 : ℚ) : ℚ) : ℝ) = (4 : ℝ)^2 by norm_num]
    exact Real.sqrt_sq (by norm_num)
  have s100 : Real.sqrt (((100 : ℚ) : ℚ) : ℝ) = 10 := by
    rw [show (((100 : ℚ) : ℚ) : ℝ) = (10 : ℝ)^2 by norm_num]
    exact Real.sqrt_sq (by norm_num)
  constructor
  · norm_num [earClaimAvg, earClaimEye, lmCE]
  · rw [h26, h35, h14, g26, g35, g14, s9, s16, s100]
    norm_num
